import Mathlib

/-!
Shallow embedding of the job-card lifecycle and financial reconciliation core of
the clutch-gear backend (job cards, estimates, billing, invoices, payments,
refunds, coupons).  Money amounts are modelled as exact rationals; JavaScript's
`Math.round((n + Number.EPSILON) * 100) / 100` two-decimal rounding is modelled
as half-up rounding on rationals.  Statuses are strings, exactly as in the
JavaScript source.  Fallible controller steps are modelled as `Except`-valued
functions: an `.error` result corresponds to a thrown `ApiError` before any
persisted mutation (the controllers are validation-first).
-/

namespace ClutchGear

/-- Two-decimal half-up rounding; models `round2` in `jobcard.controller.js`
(`Math.round((Number(n || 0) + Number.EPSILON) * 100) / 100`). -/
def round2 (q : ℚ) : ℚ := (⌊q * 100 + 1 / 2⌋ : ℚ) / 100

/-- Error taxonomy of the `ApiError` helper; the repository's controllers use
distinct constructors `notFound`, `forbidden`, `conflict`, `badRequest`
(`ApiError.conflict` appears in `coupon.controller.js`, the rest throughout). -/
inductive ErrKind where
  | notFound
  | forbidden
  | conflict
  | badRequest
deriving DecidableEq, Repr

/-- Modelled from the spec: the `utils/apiError` module is not under `src/`;
an error is a kind from the §7 taxonomy plus a human-readable message. -/
structure ApiErr where
  kind : ErrKind
  msg : String
deriving DecidableEq, Repr

namespace ApiError

def notFound (m : String) : ApiErr := ⟨ErrKind.notFound, m⟩

def forbidden (m : String) : ApiErr := ⟨ErrKind.forbidden, m⟩

def conflict (m : String) : ApiErr := ⟨ErrKind.conflict, m⟩

def badRequest (m : String) : ApiErr := ⟨ErrKind.badRequest, m⟩

end ApiError

/-- A job/estimate/invoice line item (shape shared by `jobItems`, estimate
items and invoice items in the source). -/
@[ext]
structure JobItem where
  itemType : String := "service"
  name : String := ""
  description : String := ""
  quantity : ℚ := 1
  unitPrice : ℚ := 0
  discount : ℚ := 0
  total : ℚ := 0
deriving DecidableEq, Repr

/-- One item of `normalizeJobItems` (`jobcard.controller.js` lines 36-54).
`Number(item.quantity || 1)` sends a zero quantity to 1 before the clamp. -/
def normalizeJobItem (item : JobItem) : JobItem :=
  let quantity := max 1 (if item.quantity = 0 then 1 else item.quantity)
  let unitPrice := max 0 item.unitPrice
  let discountPct := min (max item.discount 0) 100
  let lineTotal := quantity * unitPrice
  let discountAmount := lineTotal * discountPct / 100
  let total := max 0 (lineTotal - discountAmount)
  { item with
    quantity := quantity
    unitPrice := unitPrice
    discount := discountPct
    total := round2 total }

/-- `normalizeJobItems` (`jobcard.controller.js` lines 36-54). -/
def normalizeJobItems (items : List JobItem) : List JobItem :=
  items.map normalizeJobItem

/-- The coupon reference attached to a job card's billing by `applyCoupon`. -/
structure AppliedCoupon where
  code : String
  discountType : String := ""
  discountValue : ℚ := 0
  discountAmount : ℚ := 0
deriving DecidableEq, Repr

/-- The `billing` summary embedded in a job card. -/
structure Billing where
  subtotal : ℚ := 0
  discount : ℚ := 0
  discountReason : String := ""
  taxRate : ℚ := 18
  taxAmount : ℚ := 0
  grandTotal : ℚ := 0
  coupon : Option AppliedCoupon := none
deriving DecidableEq, Repr

/-- Modelled from the spec: `jobcard.model.js` (which defines the
`calculateBilling` method) is not under `src/`; this follows §4.2 of the spec:
`subtotal = round2(Σ item.total)`, `afterDiscount = max(0, subtotal −
billing.discount)`, `taxAmount = round2(afterDiscount × taxRate / 100)`,
`grandTotal = round2(afterDiscount + taxAmount)`; the calculator is the only
writer of `subtotal`/`taxAmount`/`grandTotal`. -/
def calculateBilling (items : List JobItem) (b : Billing) : Billing :=
  let subtotal := round2 ((items.map (fun i => i.total)).sum)
  let afterDiscount := max 0 (subtotal - b.discount)
  let taxAmount := round2 (afterDiscount * b.taxRate / 100)
  let grandTotal := round2 (afterDiscount + taxAmount)
  { b with subtotal := subtotal, taxAmount := taxAmount, grandTotal := grandTotal }

/-- One entry of a job card's append-only `statusHistory`. -/
structure StatusHistoryEntry where
  status : String
  changedAt : ℕ
  changedBy : Option String := none
  notes : Option String := none
deriving DecidableEq, Repr

/-- The embedded estimate of a job card (one active instance). -/
structure Estimate where
  version : ℕ := 1
  status : String := "PENDING_APPROVAL"
  items : List JobItem := []
  subtotal : ℚ := 0
  discountAmount : ℚ := 0
  discountReason : String := ""
  taxRate : ℚ := 18
  taxAmount : ℚ := 0
  grandTotal : ℚ := 0
  notes : String := ""
  expiresAt : Option ℕ := none
  approvedAt : Option ℕ := none
  approvedBy : Option String := none
deriving DecidableEq, Repr

/-- The job card state touched by the lifecycle and billing operations. -/
structure JobCard where
  status : String := "created"
  statusHistory : List StatusHistoryEntry := []
  jobItems : List JobItem := []
  billing : Billing := {}
  estimate : Option Estimate := none
  estimateHistory : List Estimate := []
deriving DecidableEq, Repr

/-- Modelled from the spec: `jobcard.model.js` (which defines the
`updateStatus` instance method) is not under `src/`.  §4.1 transition
contract: "every status change must append a `statusHistory` entry (status,
timestamp, actor id, free-text note)".  The three-argument call sites in
`jobcard.controller.js` (lines 824-829, 1147, 1231-1235) fix the signature as
`updateStatus(newStatus, userId, notes)`; a missing JavaScript argument is
`undefined`, modelled as `none`. -/
def JobCard.updateStatus (jc : JobCard) (newStatus : String) (userId : Option String)
    (notes : Option String) (now : ℕ) : JobCard :=
  { jc with
    status := newStatus
    statusHistory := jc.statusHistory ++ [⟨newStatus, now, userId, notes⟩] }

/-- A payment transaction.  `payment.model.js` is not under `src/`; the fields
are the ones read and written by `jobcard.controller.js`, `invoice.controller.js`
and the advanced payment/refund controller: `amount`/`status` for the completed
payment ledger, and `paidAmount`/`totalAmount`/`balanceAmount`/`paymentStatus`
for the advanced ledger. -/
structure Payment where
  amount : ℚ := 0
  status : String := "pending"
  paidAmount : ℚ := 0
  totalAmount : ℚ := 0
  balanceAmount : ℚ := 0
  paymentStatus : String := ""
  paymentMethod : String := ""
deriving DecidableEq, Repr

/-- Modelled from the spec: `payment.model.js` (static `getJobCardPayments`) is
not under `src/`.  §4.6: a job card's `totalPaid` "is always derived fresh from
the payment collection" as the sum of completed payments. -/
def getJobCardPaymentsTotal (payments : List Payment) : ℚ :=
  ((payments.filter (fun p => p.status == "completed")).map (fun p => p.amount)).sum

/-- The delivery-guard error message of `updateJobCard` /
`updateAssignedJobCardStatus` (source: `Cannot mark delivered until payment is
completed. Balance due: ₹<balanceDue.toFixed(2)>`); the two-decimal rendering
of the named balance is kept as the exact rational. -/
def balanceDueMessage (balanceDue : ℚ) : String :=
  "Cannot mark delivered until payment is completed. Balance due: " ++ toString balanceDue

/-- The status-change step shared by `updateJobCard` (admin, lines 802-848) and
`updateAssignedJobCardStatus` (mechanic, lines 1125-1151) in
`jobcard.controller.js`: equal status is a no-op; a transition to `delivered`
requires current status `ready` and `max(0, grandTotal − totalPaid) ≤ 0.01`;
otherwise the status is updated with a history entry.  Errors are thrown before
any mutation, so an `.error` result leaves the stored job card unchanged. -/
def jobCardStatusChange (jc : JobCard) (newStatus : String) (payments : List Payment)
    (userId : String) (note : String) (now : ℕ) : Except ApiErr JobCard :=
  if newStatus = jc.status then .ok jc
  else if newStatus = "delivered" ∧ jc.status ≠ "ready" then
    .error (ApiError.badRequest "Job card must be marked ready before it can be delivered")
  else
    let totalPaid := getJobCardPaymentsTotal payments
    let balanceDue := max 0 (jc.billing.grandTotal - totalPaid)
    if newStatus = "delivered" ∧ balanceDue > 1 / 100 then
      .error (ApiError.badRequest (balanceDueMessage balanceDue))
    else
      .ok (jc.updateStatus newStatus (some userId) (some note) now)

/-- `approveEstimate` (`jobcard.controller.js` lines 399-479), the state
mutation part.  Note the source calls `jobCard.updateStatus(req.userId,
"Customer approved cost estimate")`, so the acting user's id lands in the
`newStatus` slot and the note in the `userId` slot, before `jobCard.status` is
overwritten with `"approved"`; the estimate totals are copied into billing only
when `estimate.grandTotal > 0`. -/
def approveEstimate (jc : JobCard) (userId : String) (now : ℕ) : Except ApiErr JobCard :=
  match jc.estimate with
  | none => .error (ApiError.notFound "No estimate available for this job card")
  | some est =>
    if est.status ≠ "PENDING_APPROVAL" then
      .error (ApiError.badRequest ("Estimate has already been " ++ est.status.toLower))
    else if ¬ (jc.status = "inspection" ∨ jc.status = "awaiting-approval") then
      .error (ApiError.badRequest "Cannot approve estimate at this stage of the job")
    else if (match est.expiresAt with | some t => decide (t < now) | none => false) then
      .error (ApiError.badRequest "This estimate has expired. Please request a new estimate.")
    else
      let est := { est with status := "APPROVED", approvedAt := some now, approvedBy := some userId }
      let jc := { jc with estimate := some est }
      let jc := jc.updateStatus userId (some "Customer approved cost estimate") none now
      let jc := { jc with status := "approved" }
      let jc :=
        if est.grandTotal > 0 then
          { jc with billing := { jc.billing with
              subtotal := est.subtotal
              discount := est.discountAmount
              discountReason := est.discountReason
              taxRate := est.taxRate
              taxAmount := est.taxAmount
              grandTotal := est.grandTotal } }
        else jc
      .ok jc

/-- The request body of `createOrUpdateEstimate` (items, discountAmount,
discountReason, taxRate, notes, expiresAt); absent JSON fields are `none`. -/
structure EstimateInput where
  items : List JobItem := []
  discountAmount : Option ℚ := none
  discountReason : Option String := none
  taxRate : Option ℚ := none
  notes : Option String := none
  expiresAt : Option ℕ := none
deriving Repr

/-- Normalization of one estimate item (`jobcard.controller.js` lines 940-957):
same clamps as `normalizeJobItems`, with `type: item.type || "service"`. -/
def normalizeEstimateItem (item : JobItem) : JobItem :=
  let quantity := max 1 (if item.quantity = 0 then 1 else item.quantity)
  let unitPrice := max 0 item.unitPrice
  let discountPct := min (max item.discount 0) 100
  let lineTotal := quantity * unitPrice
  let discountAmt := lineTotal * discountPct / 100
  let total := round2 (max 0 (lineTotal - discountAmt))
  { itemType := if item.itemType = "" then "service" else item.itemType
    name := item.name
    description := item.description
    quantity := quantity
    unitPrice := unitPrice
    discount := discountPct
    total := total }

/-- The estimate totals block of `createOrUpdateEstimate`
(`jobcard.controller.js` lines 959-966): `subtotal = round2(Σ item.total)` over
the normalized items, `discount = max(0, discountAmount || 0)`, `afterDiscount
= max(0, subtotal − discount)`, tax rate defaulting to 18 when absent,
`taxAmount = round2(afterDiscount × tax / 100)`, `grandTotal =
round2(afterDiscount + taxAmount)`. -/
structure EstimateTotals where
  subtotal : ℚ
  discount : ℚ
  taxRate : ℚ
  taxAmount : ℚ
  grandTotal : ℚ
deriving DecidableEq, Repr

/-- See `EstimateTotals`. -/
def estimateTotals (normalizedItems : List JobItem) (discountAmount taxRateInput : Option ℚ) :
    EstimateTotals :=
  let subtotal := round2 ((normalizedItems.map (fun i => i.total)).sum)
  let discount := max 0 (discountAmount.getD 0)
  let afterDiscount := max 0 (subtotal - discount)
  let tax := taxRateInput.getD 18
  let taxAmount := round2 (afterDiscount * tax / 100)
  let grandTotal := round2 (afterDiscount + taxAmount)
  ⟨subtotal, discount, tax, taxAmount, grandTotal⟩

/-- `createOrUpdateEstimate` (`jobcard.controller.js` lines 912-1036), the state
mutation part.  Totals are computed inline (lines 959-966); the job card moves
to `awaiting-approval` from `created`/`inspection`, again via the shifted
two-argument `updateStatus(req.userId, note)` call before `jobCard.status` is
assigned directly. -/
def createOrUpdateEstimate (jc : JobCard) (inp : EstimateInput) (userId : String)
    (now : ℕ) : Except ApiErr JobCard :=
  if (match jc.estimate with | some e => e.status == "APPROVED" | none => false) then
    .error (ApiError.badRequest
      "Cannot modify an approved estimate. Create a supplementary estimate instead.")
  else if jc.status = "delivered" ∨ jc.status = "cancelled" then
    .error (ApiError.badRequest "Cannot create estimate for completed or cancelled jobs")
  else
    let normalizedItems := inp.items.map normalizeEstimateItem
    let t := estimateTotals normalizedItems inp.discountAmount inp.taxRate
    let newVersion := (match jc.estimate with | some e => e.version | none => 0) + 1
    let isRevision := jc.estimate.isSome
    let est : Estimate :=
      { version := newVersion
        status := "PENDING_APPROVAL"
        items := normalizedItems
        subtotal := t.subtotal
        discountAmount := t.discount
        discountReason := inp.discountReason.getD ""
        taxRate := t.taxRate
        taxAmount := t.taxAmount
        grandTotal := t.grandTotal
        notes := inp.notes.getD ""
        expiresAt := inp.expiresAt }
    let jc := { jc with estimate := some est }
    let jc :=
      if jc.status = "created" ∨ jc.status = "inspection" then
        let note := if isRevision then "Revised estimate sent to customer"
                    else "Estimate sent to customer"
        let jc := jc.updateStatus userId (some note) none now
        { jc with status := "awaiting-approval" }
      else jc
    .ok jc

/-- The invoice document state touched by the payment reconciliation paths
(`invoice.model.js`).  `paidAt : Option ℕ` is `none` until first stamped. -/
structure Invoice where
  jobCard : String := ""
  customer : String := ""
  invoiceNumber : String := ""
  subtotal : ℚ := 0
  discount : ℚ := 0
  grandTotal : ℚ := 0
  paidAmount : ℚ := 0
  balanceAmount : ℚ := 0
  status : String := "DRAFT"
  paidAt : Option ℕ := none
deriving DecidableEq, Repr

/-- The payment-tracking part of the invoice `pre('save')` hook
(`invoice.model.js` lines 243-278): recompute `balanceAmount = max(0,
grandTotal − paidAmount)`; outside `CANCELLED`/`REFUNDED`, set status `PAID`
when `paidAmount ≥ grandTotal` (stamping `paidAt` only if unset) and
`PARTIALLY_PAID` when `paidAmount > 0`.  The invoice-number generation of the
same hook is an independent concern and is not modelled here. -/
def invoicePreSave (inv : Invoice) (now : ℕ) : Invoice :=
  let inv := { inv with balanceAmount := max 0 (inv.grandTotal - inv.paidAmount) }
  if inv.status ≠ "CANCELLED" ∧ inv.status ≠ "REFUNDED" then
    if inv.paidAmount ≥ inv.grandTotal then
      { inv with status := "PAID", paidAt := some (inv.paidAt.getD now) }
    else if inv.paidAmount > 0 then
      { inv with status := "PARTIALLY_PAID" }
    else inv
  else inv

/-- The object returned by `Invoice.getWithPayments` (`invoice.model.js` lines
283-311): the stored invoice spread into a plain object with `paidAmount`
overridden by the fresh total of completed payments.  The schema has no
`paymentStatus` path, and the `lean()` query returns only stored schema fields,
so reading `paymentStatus` on this object yields `undefined` (`none`) — even
though `verifyPayment` assigns `invoice.paymentStatus`, the strict-mode schema
never persists it. -/
structure InvoiceView where
  base : Invoice
  paymentStatus : Option String
  paidAmount : ℚ
  balanceAmount : ℚ
deriving DecidableEq, Repr

/-- `Invoice.getWithPayments`, the data part. -/
def getWithPaymentsView (inv : Invoice) (payments : List Payment) : InvoiceView :=
  let totalPaid := getJobCardPaymentsTotal payments
  { base := inv
    paymentStatus := none
    paidAmount := totalPaid
    balanceAmount := max 0 (inv.grandTotal - totalPaid) }

/-- Message of the balance-exceeded rejection in `createPaymentOrder`
(source: `Amount cannot exceed balance of ₹<balanceAmount.toFixed(2)>`). -/
def exceedsBalanceMessage (balanceAmount : ℚ) : String :=
  "Amount cannot exceed balance of " ++ toString balanceAmount

/-- The validation chain of `createPaymentOrder` (`invoice.controller.js` lines
735-796) up to the gateway order creation, returning the amount an order would
be created for.  `req.body.amount` is `none` when absent; JavaScript's
`if (!amount || amount <= 0) amount = balanceAmount` replaces a missing or
non-positive amount by the (unclamped) balance. -/
def createPaymentOrderCheck (v : InvoiceView) (reqAmount : Option ℚ) : Except ApiErr ℚ :=
  if v.paymentStatus = some "PAID" then
    .error (ApiError.badRequest "Invoice is already fully paid")
  else if v.base.status = "CANCELLED" ∨ v.base.status = "REFUNDED" then
    .error (ApiError.badRequest "Cannot pay for a cancelled or refunded invoice")
  else
    let balanceAmount := v.base.grandTotal - v.paidAmount
    let requested := reqAmount.getD 0
    let amount := if requested ≤ 0 then balanceAmount else requested
    if amount > balanceAmount then
      .error (ApiError.badRequest (exceedsBalanceMessage balanceAmount))
    else if amount < 1 then
      .error (ApiError.badRequest "Minimum payment amount is ₹1")
    else
      .ok amount

/-- The duplicate-invoice lookup of `generateInvoiceFromJobCard`
(`invoice.controller.js` lines 626-630): any invoice of the job card whose
status is not `CANCELLED`. -/
def findNonCancelledInvoice (invoices : List Invoice) (jobCardId : String) : Option Invoice :=
  invoices.find? (fun i => i.jobCard == jobCardId && !(i.status == "CANCELLED"))

/-- The validation chain of `generateInvoiceFromJobCard`
(`invoice.controller.js` lines 615-650) before `Invoice.createFromJobCard`:
duplicate check first, then the billing check (`!jobCard.billing ||
!jobCard.billing.grandTotal`, i.e. a missing or zero grand total). -/
def generateInvoiceFromJobCardCheck (invoices : List Invoice) (jc : JobCard)
    (jobCardId : String) : Except ApiErr Unit :=
  match findNonCancelledInvoice invoices jobCardId with
  | some _ => .error (ApiError.badRequest "Invoice already exists for this job card")
  | none =>
    if jc.billing.grandTotal = 0 then
      .error (ApiError.badRequest "Job card has no billing information")
    else
      .ok ()

/-- The existing-invoice lookup of the customer path `getInvoiceByJobCard`
(`invoice.controller.js` lines 56-62): an invoice of the job card whose status
is neither `DRAFT` nor `CANCELLED`; the fallback invoice creation of that
endpoint runs only when this lookup is empty. -/
def customerInvoiceLookup (invoices : List Invoice) (jobCardId : String) : Option Invoice :=
  invoices.find? (fun i =>
    i.jobCard == jobCardId && !(i.status == "DRAFT") && !(i.status == "CANCELLED"))

/-- The validation chain of the customer `downloadInvoicePDF`
(`invoice.controller.js` lines 168-213) before any PDF bytes are produced:
ownership, then the `status !== "PAID"` gate. -/
def downloadInvoicePDFCheck (inv : Invoice) (requesterId : String) : Except ApiErr Unit :=
  if inv.customer ≠ requesterId then
    .error (ApiError.forbidden "Access denied")
  else if inv.status ≠ "PAID" then
    .error (ApiError.badRequest "Invoice PDF can only be downloaded after full payment")
  else
    .ok ()

/-- One entry of a refund request's append-only `logs` array. -/
structure RefundLog where
  action : String
  remarks : Option String := none
deriving DecidableEq, Repr

/-- A refund request (workflow entity, `refundRequest.model.js` /
advanced payment controller). -/
structure RefundRequest where
  requestedAmount : ℚ := 0
  reason : String := ""
  status : String := "PENDING"
  adminRemarks : Option String := none
  logs : List RefundLog := []
deriving DecidableEq, Repr

/-- `computeStatus` of the advanced payment controller (lines 14-22): set
`balanceAmount = max(totalAmount − paidAmount, 0)`; keep `REFUNDED`; otherwise
`PAID` when the balance is zero, else `PARTIAL`. -/
def computeStatus (p : Payment) : Payment :=
  let balance := max (p.totalAmount - p.paidAmount) 0
  let p := { p with balanceAmount := balance }
  if p.paymentStatus = "REFUNDED" then p
  else if balance ≤ 0 then { p with paymentStatus := "PAID" }
  else { p with paymentStatus := "PARTIAL" }

/-- `requestRefund` of the advanced payment controller (lines 149-174):
rejected when `requestedAmount > payment.paidAmount`; otherwise creates a
`PENDING` refund request with a `REQUESTED` log entry and marks the payment
`REFUND_PENDING`. -/
def requestRefund (payment : Payment) (requestedAmount : ℚ) (reason : String) :
    Except ApiErr (RefundRequest × Payment) :=
  if requestedAmount > payment.paidAmount then
    .error (ApiError.badRequest "Refund amount cannot exceed paid amount")
  else
    let refund : RefundRequest :=
      { requestedAmount := requestedAmount
        reason := reason
        status := "PENDING"
        logs := [⟨"REQUESTED", some reason⟩] }
    .ok (refund, { payment with paymentStatus := "REFUND_PENDING" })

/-- `approveRefund` of the advanced payment controller (lines 202-218):
allowed only from `PENDING`. -/
def approveRefund (refund : RefundRequest) (remarks : Option String) :
    Except ApiErr RefundRequest :=
  if refund.status ≠ "PENDING" then
    .error (ApiError.badRequest "Refund already processed")
  else
    let adminRemarks := match remarks with
      | some r => some r
      | none => refund.adminRemarks
    .ok { refund with
      status := "APPROVED"
      adminRemarks := adminRemarks
      logs := refund.logs ++ [⟨"APPROVED", adminRemarks⟩] }

/-- `rejectRefund` of the advanced payment controller (lines 220-236):
allowed only from `PENDING`. -/
def rejectRefund (refund : RefundRequest) (remarks : Option String) :
    Except ApiErr RefundRequest :=
  if refund.status ≠ "PENDING" then
    .error (ApiError.badRequest "Refund already processed")
  else
    let adminRemarks := match remarks with
      | some r => some r
      | none => refund.adminRemarks
    .ok { refund with
      status := "REJECTED"
      adminRemarks := adminRemarks
      logs := refund.logs ++ [⟨"REJECTED", adminRemarks⟩] }

/-- `processRefund` of the advanced payment controller (lines 238-282), the
ledger mutation part: allowed only from `APPROVED` or `PENDING`; decrements the
payment's paid amount (clamped at 0), recomputes its status, marks it
`REFUNDED` when the paid amount reached zero, and stamps the refund
`PROCESSED`.  The best-effort gateway refund call has no effect on this state. -/
def processRefund (refund : RefundRequest) (payment : Payment) (remarks : Option String) :
    Except ApiErr (RefundRequest × Payment) :=
  if ¬ (refund.status = "APPROVED" ∨ refund.status = "PENDING") then
    .error (ApiError.badRequest "Refund cannot be processed")
  else
    let payment := { payment with
      paidAmount := max (payment.paidAmount - refund.requestedAmount) 0 }
    let payment := computeStatus payment
    let payment :=
      if payment.paidAmount = 0 then { payment with paymentStatus := "REFUNDED" }
      else payment
    let refund := { refund with
      status := "PROCESSED"
      logs := refund.logs ++ [⟨"PROCESSED", remarks⟩] }
    .ok (refund, payment)

/-- A coupon.  `coupon.model.js` is not under `src/`; the fields follow the
data model of §3 of the spec and the reads in `coupon.controller.js`.
Per-customer usage is an association list keyed by customer id. -/
structure Coupon where
  code : String
  couponType : String := "flat"
  value : ℚ := 0
  maxDiscount : Option ℚ := none
  minOrderAmount : ℚ := 0
  validFrom : ℕ := 0
  validUntil : ℕ := 0
  usageLimitTotal : Int := -1
  usageLimitPerUser : Int := 1
  usedCount : ℕ := 0
  usageByUser : List (String × ℕ) := []
  isActive : Bool := true
deriving DecidableEq, Repr

/-- How many times the given customer has used the coupon. -/
def Coupon.userUsed (c : Coupon) (customerId : String) : ℕ :=
  (c.usageByUser.lookup customerId).getD 0

/-- Result of `canBeUsedBy`: a validity flag with a human-readable reason. -/
structure CouponValidation where
  valid : Bool
  reason : String := ""
deriving DecidableEq, Repr

/-- Modelled from the spec: `coupon.model.js` (`canBeUsedBy`) is not under
`src/`.  §4.4: checks in order `isActive`; `now` within
`[validFrom, validTill]`; `orderAmount ≥ minInvoiceAmount`; global usage count
below `usageLimit.total` (unlimited if `-1`); this customer's count below
`usageLimit.perUser`; the first failing check short-circuits with a reason. -/
def Coupon.canBeUsedBy (c : Coupon) (customerId : String) (orderAmount : ℚ)
    (now : ℕ) : CouponValidation :=
  if ¬ c.isActive then ⟨false, "Coupon is not active"⟩
  else if ¬ (c.validFrom ≤ now ∧ now ≤ c.validUntil) then
    ⟨false, "Coupon is not valid at this time"⟩
  else if orderAmount < c.minOrderAmount then
    ⟨false, "Order amount is below the minimum required for this coupon"⟩
  else if c.usageLimitTotal ≠ -1 ∧ c.usageLimitTotal ≤ (c.usedCount : Int) then
    ⟨false, "Coupon usage limit reached"⟩
  else if c.usageLimitPerUser ≤ (c.userUsed customerId : Int) then
    ⟨false, "Coupon usage limit reached for this customer"⟩
  else ⟨true, ""⟩

/-- Modelled from the spec: `coupon.model.js` (`calculateDiscount`) is not
under `src/`.  §4.4: flat type returns `min(value, orderAmount)`; percentage
type returns `min(orderAmount × value / 100, maxDiscountAmount or +∞)`. -/
def Coupon.calculateDiscount (c : Coupon) (orderAmount : ℚ) : ℚ :=
  if c.couponType = "flat" then min c.value orderAmount
  else
    let pct := orderAmount * c.value / 100
    match c.maxDiscount with
    | some m => min pct m
    | none => pct

/-- Bump one key of the per-customer usage association list. -/
def bumpUsage : List (String × ℕ) → String → List (String × ℕ)
  | [], u => [(u, 1)]
  | (k, n) :: rest, u =>
    if k = u then (k, n + 1) :: rest else (k, n) :: bumpUsage rest u

/-- Modelled from the spec: `coupon.model.js` (`recordUsage`) is not under
`src/`.  §4.4: increments the global and the calling customer's usage
counters. -/
def Coupon.recordUsage (c : Coupon) (customerId : String) : Coupon :=
  { c with
    usedCount := c.usedCount + 1
    usageByUser := bumpUsage c.usageByUser customerId }

/-- `applyCoupon` (`coupon.controller.js` lines 170-219), the state mutation
part: rejected when a different coupon code is already attached; recalculates
billing, validates against the subtotal, writes the discount, reason and coupon
reference, recalculates again, saves, then records usage.  Returns the updated
job card, the updated coupon and the discount amount. -/
def applyCoupon (coupon : Coupon) (jc : JobCard) (userId : String) (now : ℕ) :
    Except ApiErr (JobCard × Coupon × ℚ) :=
  if (match jc.billing.coupon with
      | some ac => !(ac.code == coupon.code)
      | none => false) then
    .error (ApiError.badRequest "A coupon is already applied to this invoice")
  else
    let jc := { jc with billing := calculateBilling jc.jobItems jc.billing }
    let orderAmount := jc.billing.subtotal
    let v := coupon.canBeUsedBy userId orderAmount now
    if v.valid = false then
      .error (ApiError.badRequest v.reason)
    else
      let d := coupon.calculateDiscount orderAmount
      let jc := { jc with billing := { jc.billing with
        discount := d
        discountReason := "COUPON:" ++ coupon.code
        coupon := some ⟨coupon.code, coupon.couponType, coupon.value, d⟩ } }
      let jc := { jc with billing := calculateBilling jc.jobItems jc.billing }
      let coupon := coupon.recordUsage userId
      .ok (jc, coupon, d)

/-! ## Helper lemmas -/

lemma max_one_if_zero (q : ℚ) : max 1 (if q = 0 then 1 else q) = max 1 q := by
  by_cases h : q = 0
  · rw [if_pos h, h, max_self, max_eq_left]
    norm_num
  · rw [if_neg h]

lemma max_one_renorm (x : ℚ) : max 1 (if max 1 x = 0 then 1 else max 1 x) = max 1 x := by
  have h1 : (1 : ℚ) ≤ max 1 x := le_max_left _ _
  have h0 : max 1 x ≠ 0 := by
    intro h
    rw [h] at h1
    norm_num at h1
  rw [if_neg h0, max_eq_right h1]

lemma normalizeJobItem_idem (item : JobItem) :
    normalizeJobItem (normalizeJobItem item) = normalizeJobItem item := by
  have hq := max_one_renorm (if item.quantity = 0 then 1 else item.quantity)
  have hu : max (0 : ℚ) (max 0 item.unitPrice) = max 0 item.unitPrice :=
    max_eq_right (le_max_left _ _)
  have hd0 : (0 : ℚ) ≤ min (max item.discount 0) 100 :=
    le_min (le_max_right _ _) (by norm_num)
  have hd : min (max (min (max item.discount 0) 100) 0) 100 = min (max item.discount 0) 100 := by
    rw [max_eq_left hd0, min_eq_left (min_le_right _ _)]
  simp only [normalizeJobItem, JobItem.mk.injEq]
  refine ⟨trivial, trivial, trivial, hq, hu, hd, ?_⟩
  rw [hq, hu, hd]

/-! ## Claims -/

/-- C9: for every job item, normalization yields `quantity = max(1, qty)`,
`unitPrice = max(0, price)`, discount percent clamped to `[0, 100]`, and
`item.total = round2(max(0, quantity × unitPrice × (1 − discountPct/100)))`;
normalizing an already-normalized item leaves it unchanged (`normalizeJobItems`
is idempotent). -/
theorem c9_normalize_job_items :
    (∀ item : JobItem,
      (normalizeJobItem item).quantity = max 1 item.quantity ∧
      (normalizeJobItem item).unitPrice = max 0 item.unitPrice ∧
      (normalizeJobItem item).discount = min (max item.discount 0) 100 ∧
      0 ≤ (normalizeJobItem item).discount ∧
      (normalizeJobItem item).discount ≤ 100 ∧
      (normalizeJobItem item).total =
        round2 (max 0 ((normalizeJobItem item).quantity * (normalizeJobItem item).unitPrice *
          (1 - (normalizeJobItem item).discount / 100)))) ∧
    (∀ items : List JobItem,
      normalizeJobItems (normalizeJobItems items) = normalizeJobItems items) := by
  constructor
  · intro item
    refine ⟨?_, ?_, ?_, ?_, ?_, ?_⟩
    · simp only [normalizeJobItem]
      exact max_one_if_zero item.quantity
    · simp only [normalizeJobItem]
    · simp only [normalizeJobItem]
    · simp only [normalizeJobItem]
      exact le_min (le_max_right _ _) (by norm_num)
    · simp only [normalizeJobItem]
      exact min_le_right _ _
    · simp only [normalizeJobItem]
      congr 1
      congr 1
      ring
  · intro items
    induction items with
    | nil => rfl
    | cons a t ih =>
      simp only [normalizeJobItems, List.map_cons] at ih ⊢
      rw [normalizeJobItem_idem a, ih]

/-- Scenario A request items: qty 1 @ ₹500 and qty 2 @ ₹300. -/
def scenarioAItems : List JobItem :=
  [{ name := "Item A", quantity := 1, unitPrice := 500 },
   { name := "Item B", quantity := 2, unitPrice := 300 }]

/-- C1: billing totals always satisfy `taxAmount = round2(max(0, subtotal −
discount) × taxRate / 100)` and `grandTotal = round2(max(0, subtotal −
discount) + taxAmount)`, for both recalculation paths (the job-card
`calculateBilling` recompute, run on every recalculation trigger, and the
inline estimate totals of `createOrUpdateEstimate`); Scenario A (qty 1 @ ₹500,
qty 2 @ ₹300, 10% tax) yields subtotal ₹1100, tax ₹110, grandTotal ₹1210. -/
theorem c1_billing_grand_total :
    (∀ (items : List JobItem) (b : Billing),
      (calculateBilling items b).discount = b.discount ∧
      (calculateBilling items b).taxAmount =
        round2 (max 0 ((calculateBilling items b).subtotal -
          (calculateBilling items b).discount) * (calculateBilling items b).taxRate / 100) ∧
      (calculateBilling items b).grandTotal =
        round2 (max 0 ((calculateBilling items b).subtotal -
          (calculateBilling items b).discount) + (calculateBilling items b).taxAmount)) ∧
    (∀ (normalizedItems : List JobItem) (dOpt tOpt : Option ℚ),
      (estimateTotals normalizedItems dOpt tOpt).taxAmount =
        round2 (max 0 ((estimateTotals normalizedItems dOpt tOpt).subtotal -
          (estimateTotals normalizedItems dOpt tOpt).discount) *
          (estimateTotals normalizedItems dOpt tOpt).taxRate / 100) ∧
      (estimateTotals normalizedItems dOpt tOpt).grandTotal =
        round2 (max 0 ((estimateTotals normalizedItems dOpt tOpt).subtotal -
          (estimateTotals normalizedItems dOpt tOpt).discount) +
          (estimateTotals normalizedItems dOpt tOpt).taxAmount)) ∧
    ((estimateTotals (scenarioAItems.map normalizeEstimateItem) none (some 10)).subtotal = 1100 ∧
     (estimateTotals (scenarioAItems.map normalizeEstimateItem) none (some 10)).taxAmount = 110 ∧
     (estimateTotals (scenarioAItems.map normalizeEstimateItem) none (some 10)).grandTotal = 1210) ∧
    ((calculateBilling (scenarioAItems.map normalizeEstimateItem)
        { discount := 0, taxRate := 10 }).subtotal = 1100 ∧
     (calculateBilling (scenarioAItems.map normalizeEstimateItem)
        { discount := 0, taxRate := 10 }).taxAmount = 110 ∧
     (calculateBilling (scenarioAItems.map normalizeEstimateItem)
        { discount := 0, taxRate := 10 }).grandTotal = 1210) := by
  refine ⟨?_, ?_, ?_, ?_⟩
  · intro items b
    refine ⟨rfl, rfl, rfl⟩
  · intro normalizedItems dOpt tOpt
    refine ⟨rfl, rfl⟩
  · norm_num [estimateTotals, normalizeEstimateItem, scenarioAItems, round2, max_def, min_def]
  · norm_num [calculateBilling, normalizeEstimateItem, scenarioAItems, round2, max_def, min_def]

/-- C2: a status transition into `delivered` succeeds only when the current
status is exactly `ready` and `grandTotal − totalPaid ≤ 0.01` (`totalPaid`
derived from completed payments); when the balance condition is violated the
operation fails with a business-rule error whose message names the outstanding
balance (and, the guard being validation-first, the stored job card is
unchanged on that failure). -/
theorem c2_delivered_guard (jc : JobCard) (payments : List Payment)
    (userId note : String) (now : ℕ) (hcur : jc.status ≠ "delivered") :
    ((jobCardStatusChange jc "delivered" payments userId note now).isOk = true ↔
      (jc.status = "ready" ∧
        jc.billing.grandTotal - getJobCardPaymentsTotal payments ≤ 1 / 100)) ∧
    (jc.status = "ready" →
      1 / 100 < jc.billing.grandTotal - getJobCardPaymentsTotal payments →
      jobCardStatusChange jc "delivered" payments userId note now =
        .error (ApiError.badRequest (balanceDueMessage
          (max 0 (jc.billing.grandTotal - getJobCardPaymentsTotal payments))))) := by
  simp only [jobCardStatusChange]
  rw [if_neg (fun h => hcur h.symm)]
  by_cases hr : jc.status = "ready"
  · rw [if_neg (by simp [hr])]
    by_cases hb : 1 / 100 < jc.billing.grandTotal - getJobCardPaymentsTotal payments
    · have hmax : (1 : ℚ) / 100 <
          max 0 (jc.billing.grandTotal - getJobCardPaymentsTotal payments) :=
        lt_max_iff.mpr (Or.inr hb)
      rw [if_pos ⟨trivial, hmax⟩]
      refine ⟨⟨fun h => by simp [Except.isOk, Except.toBool] at h,
        fun ⟨_, hle⟩ => absurd hb (not_lt.mpr hle)⟩, fun _ _ => rfl⟩
    · have hle := not_lt.mp hb
      have hnot : ¬ ((1 : ℚ) / 100 <
          max 0 (jc.billing.grandTotal - getJobCardPaymentsTotal payments)) := by
        rw [lt_max_iff]
        push_neg
        exact ⟨by norm_num, hle⟩
      rw [if_neg (fun hh => hnot hh.2)]
      exact ⟨⟨fun _ => ⟨hr, hle⟩, fun _ => rfl⟩, fun _ hb' => absurd hb' hb⟩
  · rw [if_pos ⟨trivial, hr⟩]
    refine ⟨⟨fun h => by simp [Except.isOk, Except.toBool] at h,
      fun ⟨h, _⟩ => absurd h hr⟩, fun h => absurd h hr⟩

/-- Concrete job card for the C2 witness: status `ready`, grand total ₹1210. -/
def c2jc : JobCard :=
  { status := "ready"
    billing := { subtotal := 1100, taxRate := 10, taxAmount := 110, grandTotal := 1210 } }

/-- Concrete payment list for the C2 witness: one completed payment of ₹1210. -/
def c2payments : List Payment := [{ amount := 1210, status := "completed" }]

/-- Witness for C2 at a fully paid, ready job card. -/
theorem c2_delivered_guard_witness :
    ((jobCardStatusChange c2jc "delivered" c2payments "admin" "note" 3).isOk = true ↔
      (c2jc.status = "ready" ∧
        c2jc.billing.grandTotal - getJobCardPaymentsTotal c2payments ≤ 1 / 100)) ∧
    (c2jc.status = "ready" →
      1 / 100 < c2jc.billing.grandTotal - getJobCardPaymentsTotal c2payments →
      jobCardStatusChange c2jc "delivered" c2payments "admin" "note" 3 =
        .error (ApiError.badRequest (balanceDueMessage
          (max 0 (c2jc.billing.grandTotal - getJobCardPaymentsTotal c2payments))))) :=
  c2_delivered_guard c2jc c2payments "admin" "note" 3 (by simp [c2jc])

/-- C10: the customer PDF-download operation succeeds only when the invoice
status is exactly `PAID`; for an owned invoice in `ISSUED`, `PARTIALLY_PAID`,
`CANCELLED` or `REFUNDED` it fails with a business-rule error, and no document
is produced (the error is thrown before PDF generation). -/
theorem c10_pdf_requires_paid (inv : Invoice) (requesterId : String) :
    ((downloadInvoicePDFCheck inv requesterId).isOk = true → inv.status = "PAID") ∧
    (inv.customer = requesterId →
      (inv.status = "ISSUED" ∨ inv.status = "PARTIALLY_PAID" ∨
        inv.status = "CANCELLED" ∨ inv.status = "REFUNDED") →
      downloadInvoicePDFCheck inv requesterId =
        .error (ApiError.badRequest "Invoice PDF can only be downloaded after full payment")) := by
  constructor
  · intro h
    unfold downloadInvoicePDFCheck at h
    by_cases h1 : inv.customer ≠ requesterId
    · rw [if_pos h1] at h
      exact absurd h (by simp [Except.isOk, Except.toBool])
    · rw [if_neg h1] at h
      by_cases h2 : inv.status ≠ "PAID"
      · rw [if_pos h2] at h
        exact absurd h (by simp [Except.isOk, Except.toBool])
      · exact not_not.mp h2
  · intro ho hs
    have hne : inv.status ≠ "PAID" := by
      rcases hs with h | h | h | h <;> simp [h]
    unfold downloadInvoicePDFCheck
    rw [if_neg (by simp [ho]), if_pos hne]

/-- Concrete invoice for the C10 witness: owned, `PARTIALLY_PAID`. -/
def c10inv : Invoice :=
  { customer := "cust-1", status := "PARTIALLY_PAID", grandTotal := 1210, paidAmount := 500 }

/-- Witness for C10 at an owned, partially paid invoice. -/
theorem c10_pdf_requires_paid_witness :
    downloadInvoicePDFCheck c10inv "cust-1" =
      .error (ApiError.badRequest "Invoice PDF can only be downloaded after full payment") :=
  (c10_pdf_requires_paid c10inv "cust-1").2 (by simp [c10inv]) (Or.inr (Or.inl (by simp [c10inv])))

/-- Fully paid invoice for the C3 counterexample (Scenario C shape: grand total
₹2000, ₹2000 received). -/
def c3inv : Invoice :=
  { jobCard := "jc-1", customer := "cust-1", grandTotal := 2000, paidAmount := 2000,
    status := "PAID", paidAt := some 5 }

/-- The completed ₹2000 payment backing `c3inv`. -/
def c3payments : List Payment := [{ amount := 2000, status := "completed" }]

/-- C3 counterexample: a ₹1 payment-order attempt against the fully paid
invoice is rejected, but with the amount-exceeds-balance error, not the
`Invoice is already fully paid` message — that check reads
`invoice.paymentStatus`, which `getWithPayments` never returns (the schema has
no such path), so its branch cannot fire. -/
theorem c3_counterexample :
    createPaymentOrderCheck (getWithPaymentsView c3inv c3payments) (some 1) =
      .error (ApiError.badRequest (exceedsBalanceMessage 0)) ∧
    exceedsBalanceMessage 0 ≠ "Invoice is already fully paid" := by
  constructor
  · have hpaid : getJobCardPaymentsTotal c3payments = 2000 := by
      simp [getJobCardPaymentsTotal, c3payments]
    simp only [createPaymentOrderCheck, getWithPaymentsView, c3inv, hpaid]
    norm_num
    simp
  · have h0 : exceedsBalanceMessage 0 = "Amount cannot exceed balance of " ++ toString (0 : ℚ) :=
      rfl
    rw [h0]
    decide

/-- C3 (amended): for every invoice not in `CANCELLED`/`REFUNDED`, every save
recomputes `balanceAmount = max(0, grandTotal − paidAmount)`, sets status
`PAID` when `paidAmount ≥ grandTotal` stamping `paidAt` exactly once (an
existing stamp is never overwritten) and `PARTIALLY_PAID` when `0 < paidAmount
< grandTotal`; and every payment-order attempt against a fully paid invoice is
rejected (via the balance and minimum-amount checks; the dedicated
"already fully paid" branch is unreachable because it tests a `paymentStatus`
field the schema never stores). -/
theorem c3_invoice_reconciliation :
    (∀ (inv : Invoice) (now : ℕ),
      inv.status ≠ "CANCELLED" → inv.status ≠ "REFUNDED" →
      (invoicePreSave inv now).balanceAmount = max 0 (inv.grandTotal - inv.paidAmount) ∧
      (inv.grandTotal ≤ inv.paidAmount →
        (invoicePreSave inv now).status = "PAID" ∧
        (invoicePreSave inv now).paidAt = some (inv.paidAt.getD now)) ∧
      (∀ t, inv.paidAt = some t → (invoicePreSave inv now).paidAt = some t) ∧
      (0 < inv.paidAmount → inv.paidAmount < inv.grandTotal →
        (invoicePreSave inv now).status = "PARTIALLY_PAID")) ∧
    (∀ (inv : Invoice) (payments : List Payment) (reqAmount : Option ℚ),
      inv.grandTotal ≤ getJobCardPaymentsTotal payments →
      (createPaymentOrderCheck (getWithPaymentsView inv payments) reqAmount).isOk = false) := by
  constructor
  · intro inv now h1 h2
    simp only [invoicePreSave]
    rw [if_pos ⟨h1, h2⟩]
    by_cases hp : inv.paidAmount ≥ inv.grandTotal
    · rw [if_pos hp]
      refine ⟨rfl, fun _ => ⟨rfl, rfl⟩, fun t ht => by simp [ht], fun _ hlt => absurd hp (by
        exact not_le.mpr hlt)⟩
    · rw [if_neg hp]
      by_cases hz : inv.paidAmount > 0
      · rw [if_pos hz]
        exact ⟨rfl, fun hge => absurd hge hp, fun t ht => by simp [ht], fun _ _ => rfl⟩
      · rw [if_neg hz]
        exact ⟨rfl, fun hge => absurd hge hp, fun t ht => by simp [ht],
          fun hgt _ => absurd hgt hz⟩
  · intro inv payments reqAmount hfull
    simp only [createPaymentOrderCheck, getWithPaymentsView]
    rw [if_neg (by simp)]
    by_cases hc : inv.status = "CANCELLED" ∨ inv.status = "REFUNDED"
    · rw [if_pos hc]
      rfl
    · rw [if_neg hc]
      have hb : inv.grandTotal - getJobCardPaymentsTotal payments ≤ 0 := by linarith
      by_cases ha : reqAmount.getD 0 ≤ 0
      · rw [if_pos ha, if_neg (lt_irrefl _),
          if_pos (by linarith : inv.grandTotal - getJobCardPaymentsTotal payments < 1)]
        rfl
      · have hgt : inv.grandTotal - getJobCardPaymentsTotal payments < reqAmount.getD 0 := by
          push_neg at ha
          linarith
        rw [if_neg ha, if_pos hgt]
        rfl

/-- Invoice for the C3 witness: `ISSUED`, grand total ₹2000, first stamped by a
₹2000 completion. -/
def c3winv : Invoice :=
  { jobCard := "jc-2", customer := "cust-2", grandTotal := 2000, paidAmount := 2000,
    status := "ISSUED", paidAt := none }

/-- Witness for C3 applying both parts at concrete inputs. -/
theorem c3_invoice_reconciliation_witness :
    ((invoicePreSave c3winv 7).balanceAmount = max 0 (c3winv.grandTotal - c3winv.paidAmount) ∧
      (c3winv.grandTotal ≤ c3winv.paidAmount →
        (invoicePreSave c3winv 7).status = "PAID" ∧
        (invoicePreSave c3winv 7).paidAt = some (c3winv.paidAt.getD 7)) ∧
      (∀ t, c3winv.paidAt = some t → (invoicePreSave c3winv 7).paidAt = some t) ∧
      (0 < c3winv.paidAmount → c3winv.paidAmount < c3winv.grandTotal →
        (invoicePreSave c3winv 7).status = "PARTIALLY_PAID")) ∧
    (createPaymentOrderCheck (getWithPaymentsView c3winv c3payments) (some 1)).isOk = false :=
  ⟨c3_invoice_reconciliation.1 c3winv 7 (by simp [c3winv]) (by simp [c3winv]),
   c3_invoice_reconciliation.2 c3winv c3payments (some 1)
     (by simp [c3winv, getJobCardPaymentsTotal, c3payments])⟩

lemma computeStatus_paidAmount (p : Payment) : (computeStatus p).paidAmount = p.paidAmount := by
  simp only [computeStatus]
  split
  · rfl
  · split <;> rfl

lemma computeStatus_not_refunded (p : Payment) (h : p.paymentStatus ≠ "REFUNDED") :
    (computeStatus p).paymentStatus = "PAID" ∨ (computeStatus p).paymentStatus = "PARTIAL" := by
  simp only [computeStatus]
  rw [if_neg h]
  split
  · exact Or.inl rfl
  · exact Or.inr rfl

/-- Payment for the C4 Scenario D check: ₹2000 paid, refund pending. -/
def c4payment : Payment :=
  { paidAmount := 2000, totalAmount := 2000, paymentStatus := "REFUND_PENDING" }

/-- Approved ₹500 refund request for the C4 Scenario D check. -/
def c4refund : RefundRequest := { requestedAmount := 500, status := "APPROVED" }

/-- The refund/payment pair produced by processing `c4refund` against
`c4payment`. -/
def c4processed : RefundRequest × Payment :=
  ({ c4refund with
       status := "PROCESSED"
       logs := c4refund.logs ++ [⟨"PROCESSED", none⟩] },
   { c4payment with
       paidAmount := 1500
       balanceAmount := 500
       paymentStatus := "PARTIAL" })

lemma c4processed_eq : processRefund c4refund c4payment none = .ok c4processed := by
  simp only [processRefund, computeStatus, c4refund, c4payment, c4processed]
  norm_num
  simp

/-- C4: a refund request can be created only with `requestedAmount ≤
payment.paidAmount`; approve and reject succeed exactly from `PENDING`;
processing succeeds exactly from `APPROVED` or `PENDING`; on processing the
payment's paid amount becomes `max(0, paidAmount − requestedAmount)`, its
status is recomputed, and it is marked `REFUNDED` exactly when the resulting
paid amount is zero (for a payment not already `REFUNDED`, as guaranteed by the
workflow, which stamps `REFUND_PENDING` at request time); Scenario D: a ₹500
refund processed against a ₹2000-paid payment leaves ₹1500 paid with the
partially-paid status `PARTIAL`. -/
theorem c4_refund_workflow :
    (∀ (p : Payment) (amt : ℚ) (reason : String),
      (requestRefund p amt reason).isOk = true ↔ amt ≤ p.paidAmount) ∧
    (∀ (r : RefundRequest) (rem : Option String),
      (approveRefund r rem).isOk = true ↔ r.status = "PENDING") ∧
    (∀ (r : RefundRequest) (rem : Option String),
      (rejectRefund r rem).isOk = true ↔ r.status = "PENDING") ∧
    (∀ (r : RefundRequest) (p : Payment) (rem : Option String),
      (processRefund r p rem).isOk = true ↔
        (r.status = "APPROVED" ∨ r.status = "PENDING")) ∧
    (∀ (r : RefundRequest) (p : Payment) (rem : Option String)
        (r' : RefundRequest) (p' : Payment),
      processRefund r p rem = .ok (r', p') →
      p'.paidAmount = max (p.paidAmount - r.requestedAmount) 0 ∧
      r'.status = "PROCESSED" ∧
      (p.paymentStatus ≠ "REFUNDED" →
        (p'.paymentStatus = "REFUNDED" ↔ p'.paidAmount = 0))) ∧
    (((processRefund c4refund c4payment none).toOption.map
        (fun rp => (rp.1.status, rp.2.paidAmount, rp.2.paymentStatus))) =
      some ("PROCESSED", 1500, "PARTIAL")) := by
  refine ⟨?_, ?_, ?_, ?_, ?_, ?_⟩
  · intro p amt reason
    unfold requestRefund
    by_cases h : amt > p.paidAmount
    · rw [if_pos h]
      exact ⟨fun hh => absurd hh (by simp [Except.isOk, Except.toBool]),
        fun hle => absurd h (not_lt.mpr hle)⟩
    · rw [if_neg h]
      exact ⟨fun _ => not_lt.mp h, fun _ => rfl⟩
  · intro r rem
    unfold approveRefund
    by_cases h : r.status = "PENDING"
    · rw [if_neg (not_not_intro h)]
      exact ⟨fun _ => h, fun _ => rfl⟩
    · rw [if_pos h]
      exact ⟨fun hh => absurd hh (by simp [Except.isOk, Except.toBool]),
        fun hp => absurd hp h⟩
  · intro r rem
    unfold rejectRefund
    by_cases h : r.status = "PENDING"
    · rw [if_neg (not_not_intro h)]
      exact ⟨fun _ => h, fun _ => rfl⟩
    · rw [if_pos h]
      exact ⟨fun hh => absurd hh (by simp [Except.isOk, Except.toBool]),
        fun hp => absurd hp h⟩
  · intro r p rem
    unfold processRefund
    by_cases h : r.status = "APPROVED" ∨ r.status = "PENDING"
    · rw [if_neg (not_not_intro h)]
      exact ⟨fun _ => h, fun _ => rfl⟩
    · rw [if_pos h]
      exact ⟨fun hh => absurd hh (by simp [Except.isOk, Except.toBool]),
        fun hp => absurd hp h⟩
  · intro r p rem r' p' hok
    unfold processRefund at hok
    by_cases h : r.status = "APPROVED" ∨ r.status = "PENDING"
    · rw [if_neg (not_not_intro h)] at hok
      injection hok with hpair
      rw [Prod.mk.injEq] at hpair
      obtain ⟨hr, hp⟩ := hpair
      subst hr
      subst hp
      set p1 : Payment := { p with paidAmount := max (p.paidAmount - r.requestedAmount) 0 }
        with hp1
      have hpa : (computeStatus p1).paidAmount = p1.paidAmount := computeStatus_paidAmount p1
      refine ⟨?_, rfl, ?_⟩
      · by_cases hz : (computeStatus p1).paidAmount = 0
        · rw [if_pos hz]
          simpa using hpa
        · rw [if_neg hz]
          simpa using hpa
      · intro hnr
        have hps := computeStatus_not_refunded p1 (by simpa [hp1] using hnr)
        by_cases hz : (computeStatus p1).paidAmount = 0
        · rw [if_pos hz]
          simp [hz]
        · rw [if_neg hz]
          constructor
          · intro hh
            rcases hps with h1 | h1 <;> rw [h1] at hh <;> exact absurd hh (by decide)
          · intro hh
            exact absurd hh hz
    · rw [if_pos h] at hok
      exact absurd hok (by simp)
  · rw [c4processed_eq]
    rfl

/-- Witness for C4: the processing postconditions applied at the concrete
Scenario D input. -/
theorem c4_refund_workflow_witness :
    c4processed.2.paidAmount = max (c4payment.paidAmount - c4refund.requestedAmount) 0 ∧
    c4processed.1.status = "PROCESSED" ∧
    (c4processed.2.paymentStatus = "REFUNDED" ↔ c4processed.2.paidAmount = 0) := by
  obtain ⟨h1, h2, h3⟩ := c4_refund_workflow.2.2.2.2.1 c4refund c4payment none
    c4processed.1 c4processed.2 (by rw [c4processed_eq])
  exact ⟨h1, h2, h3 (by simp [c4payment])⟩

/-- Job card for the C5 counterexample: pending estimate whose discount equals
its subtotal, so the estimate carries `grandTotal = 0` (created that way by
`createOrUpdateEstimate` for a fully discounted item list). -/
def c5jc : JobCard :=
  { status := "awaiting-approval"
    billing := {}
    estimate := some
      { version := 1
        status := "PENDING_APPROVAL"
        subtotal := 100
        discountAmount := 100
        taxRate := 18
        taxAmount := 0
        grandTotal := 0 } }

/-- C5 counterexample: approving the pending zero-grand-total estimate
succeeds and sets the job status to `approved`, yet the estimate's subtotal
(₹100) and discount (₹100) are NOT copied into billing — the copy-over is
guarded by `estimate.grandTotal > 0`. -/
theorem c5_counterexample :
    ((approveEstimate c5jc "cust-9" 2).toOption.map
      (fun jc => (jc.status, jc.billing.subtotal, jc.billing.discount))) =
      some ("approved", 0, 0) ∧
    (c5jc.estimate.map (fun e => (e.subtotal, e.discountAmount))) = some (100, 100) := by
  constructor
  · rfl
  · simp [c5jc]

/-- C5 (amended): for every job card with an estimate in `PENDING_APPROVAL`,
job status `inspection` or `awaiting-approval`, and an unexpired (or absent)
expiry, approval succeeds, sets the estimate status to `APPROVED` and the job
status to `approved`, and — when the estimate's `grandTotal` is positive —
copies subtotal, discount, discountReason, taxRate, taxAmount and grandTotal
verbatim into billing (a zero-grand-total estimate leaves billing untouched);
in particular an approved estimate with grandTotal ₹2000 makes
`billing.grandTotal` exactly ₹2000. -/
theorem c5_approve_estimate (jc : JobCard) (est : Estimate) (userId : String) (now : ℕ)
    (hest : jc.estimate = some est)
    (hpend : est.status = "PENDING_APPROVAL")
    (hstat : jc.status = "inspection" ∨ jc.status = "awaiting-approval")
    (hexp : ∀ t, est.expiresAt = some t → now ≤ t) :
    ((approveEstimate jc userId now).toOption.map (fun jc' => jc'.status)) =
      some "approved" ∧
    ((approveEstimate jc userId now).toOption.bind
      (fun jc' => jc'.estimate.map (fun e => e.status))) = some "APPROVED" ∧
    (0 < est.grandTotal →
      ((approveEstimate jc userId now).toOption.map (fun jc' =>
        (jc'.billing.subtotal, jc'.billing.discount, jc'.billing.discountReason,
         jc'.billing.taxRate, jc'.billing.taxAmount, jc'.billing.grandTotal))) =
      some (est.subtotal, est.discountAmount, est.discountReason,
        est.taxRate, est.taxAmount, est.grandTotal)) := by
  have hexpb : (match est.expiresAt with
      | some t => decide (t < now)
      | none => false) = false := by
    cases hE : est.expiresAt with
    | none => rfl
    | some t =>
      simp only [decide_eq_false_iff_not]
      exact not_lt.mpr (hexp t hE)
  simp only [approveEstimate, hest]
  rw [if_neg (not_not_intro hpend), if_neg (not_not_intro hstat),
    if_neg (by rw [hexpb]; simp)]
  by_cases hg : est.grandTotal > 0
  · rw [if_pos (by simpa using hg)]
    exact ⟨rfl, rfl, fun _ => rfl⟩
  · rw [if_neg (by simpa using hg)]
    exact ⟨rfl, rfl, fun hh => absurd hh hg⟩

/-- Job card for the C5 witness: pending estimate with grandTotal ₹2000
(Scenario B). -/
def c5bjc : JobCard :=
  { status := "awaiting-approval"
    billing := {}
    estimate := some
      { version := 1
        status := "PENDING_APPROVAL"
        subtotal := 2000
        discountAmount := 0
        taxRate := 0
        taxAmount := 0
        grandTotal := 2000 } }

/-- Witness for C5: Scenario B at the concrete ₹2000 estimate. -/
theorem c5_approve_estimate_witness :
    ((approveEstimate c5bjc "cust-2" 4).toOption.map (fun jc' => jc'.status)) =
      some "approved" ∧
    ((approveEstimate c5bjc "cust-2" 4).toOption.map (fun jc' => jc'.billing.grandTotal)) =
      some 2000 := by
  obtain ⟨h1, _, h3⟩ := c5_approve_estimate c5bjc
    { version := 1
      status := "PENDING_APPROVAL"
      subtotal := 2000
      discountAmount := 0
      taxRate := 0
      taxAmount := 0
      grandTotal := 2000 } "cust-2" 4 rfl rfl (Or.inr rfl) (fun t ht => by simp at ht)
  refine ⟨h1, ?_⟩
  have h3' := h3 (by norm_num)
  cases hE : (approveEstimate c5bjc "cust-2" 4).toOption with
  | none => rw [hE] at h3'; simp at h3'
  | some jc' =>
    rw [hE] at h3'
    simp only [Option.map_some', Option.some.injEq, Prod.mk.injEq] at h3'
    simp [h3'.2.2.2.2.2]

/-- Existing issued invoice for the C6 counterexample. -/
def c6existing : List Invoice :=
  [{ jobCard := "jc-6", customer := "cust-6", grandTotal := 1210, status := "ISSUED" }]

/-- C6 counterexample: a second generation attempt while an `ISSUED` invoice
exists is rejected with `ApiError.badRequest`, not with a `Conflict` error —
the `ApiError.conflict` constructor exists in the codebase (used by
`createCoupon`), but `generateInvoiceFromJobCard` throws `badRequest` for the
duplicate. -/
theorem c6_counterexample :
    generateInvoiceFromJobCardCheck c6existing {} "jc-6" =
      .error (ApiError.badRequest "Invoice already exists for this job card") ∧
    (ApiError.badRequest "Invoice already exists for this job card").kind ≠ ErrKind.conflict := by
  exact ⟨rfl, by decide⟩

/-- C6 (amended): invoice generation is idempotent per job card — whenever a
non-cancelled invoice exists for the job card, a second generation attempt
fails with the `badRequest` business-rule error "Invoice already exists for
this job card" regardless of the job card's billing state, and the customer
fallback path creates nothing when a non-draft, non-cancelled invoice exists
(its lookup finds the existing one). -/
theorem c6_generate_invoice_idempotent (invoices : List Invoice) (jc : JobCard)
    (jcId : String) :
    ((∃ inv ∈ invoices, inv.jobCard = jcId ∧ inv.status ≠ "CANCELLED") →
      generateInvoiceFromJobCardCheck invoices jc jcId =
        .error (ApiError.badRequest "Invoice already exists for this job card")) ∧
    ((∃ inv ∈ invoices, inv.jobCard = jcId ∧ inv.status ≠ "DRAFT" ∧ inv.status ≠ "CANCELLED") →
      (customerInvoiceLookup invoices jcId).isSome = true) := by
  constructor
  · rintro ⟨inv, hmem, hjc, hst⟩
    have hsome : (findNonCancelledInvoice invoices jcId).isSome := by
      unfold findNonCancelledInvoice
      rw [List.find?_isSome]
      exact ⟨inv, hmem, by simp [hjc, hst]⟩
    unfold generateInvoiceFromJobCardCheck
    cases hF : findNonCancelledInvoice invoices jcId with
    | none => rw [hF] at hsome; simp at hsome
    | some x => rfl
  · rintro ⟨inv, hmem, hjc, hd, hc⟩
    unfold customerInvoiceLookup
    rw [List.find?_isSome]
    exact ⟨inv, hmem, by simp [hjc, hd, hc]⟩

/-- Witness for C6: both parts at the concrete one-invoice list. -/
theorem c6_generate_invoice_idempotent_witness :
    generateInvoiceFromJobCardCheck c6existing {} "jc-6" =
      .error (ApiError.badRequest "Invoice already exists for this job card") ∧
    (customerInvoiceLookup c6existing "jc-6").isSome = true := by
  obtain ⟨h1, h2⟩ := c6_generate_invoice_idempotent c6existing {} "jc-6"
  refine ⟨h1 ?_, h2 ?_⟩
  · exact ⟨{ jobCard := "jc-6", customer := "cust-6", grandTotal := 1210, status := "ISSUED" },
      by simp [c6existing], rfl, by decide⟩
  · exact ⟨{ jobCard := "jc-6", customer := "cust-6", grandTotal := 1210, status := "ISSUED" },
      by simp [c6existing], rfl, by decide, by decide⟩

lemma lookup_bumpUsage (l : List (String × ℕ)) (u : String) :
    ((bumpUsage l u).lookup u).getD 0 = (l.lookup u).getD 0 + 1 := by
  induction l with
  | nil => simp [bumpUsage, List.lookup]
  | cons kv rest ih =>
    obtain ⟨k, n⟩ := kv
    by_cases h : k = u
    · subst h
      simp [bumpUsage, List.lookup]
    · have hbe : (u == k) = false := beq_eq_false_iff_ne.mpr (fun hh => h hh.symm)
      simp only [bumpUsage, if_neg h, List.lookup, hbe]
      exact ih

lemma userUsed_recordUsage (c : Coupon) (u : String) :
    (c.recordUsage u).userUsed u = c.userUsed u + 1 := by
  simp only [Coupon.recordUsage, Coupon.userUsed]
  exact lookup_bumpUsage c.usageByUser u

lemma calculateBilling_subtotal (items : List JobItem) (b : Billing) :
    (calculateBilling items b).subtotal = round2 ((items.map (fun i => i.total)).sum) := rfl

lemma calculateDiscount_recordUsage (c : Coupon) (u : String) (x : ℚ) :
    (c.recordUsage u).calculateDiscount x = c.calculateDiscount x := rfl

lemma applyCoupon_ok (coupon : Coupon) (jc : JobCard) (userId : String) (now : ℕ)
    (jc' : JobCard) (coupon' : Coupon) (d : ℚ)
    (h : applyCoupon coupon jc userId now = .ok (jc', coupon', d)) :
    coupon' = coupon.recordUsage userId ∧
    jc'.jobItems = jc.jobItems ∧
    d = coupon.calculateDiscount ((calculateBilling jc.jobItems jc.billing).subtotal) ∧
    jc'.billing.discount = d ∧
    jc'.billing.coupon = some ⟨coupon.code, coupon.couponType, coupon.value, d⟩ := by
  simp only [applyCoupon] at h
  split at h
  · exact absurd h (by simp)
  · split at h
    · exact absurd h (by simp)
    · injection h with hp
      rw [Prod.mk.injEq, Prod.mk.injEq] at hp
      obtain ⟨ha, hb, hc⟩ := hp
      subst ha
      subst hb
      subst hc
      exact ⟨rfl, rfl, rfl, rfl, rfl⟩

/-- Coupon for C7: flat ₹100, per-customer limit 2, unlimited global usage. -/
def c7coupon : Coupon :=
  { code := "SAVE100", couponType := "flat", value := 100, minOrderAmount := 0,
    validFrom := 0, validUntil := 10, usageLimitTotal := -1, usageLimitPerUser := 2 }

/-- Job card for C7: a single ₹500 item, no coupon yet. -/
def c7jc : JobCard :=
  { jobItems := [{ name := "Service", quantity := 1, unitPrice := 500, total := 500 }] }

/-- `c7jc` after the first application of `c7coupon`. -/
def c7jc1 : JobCard :=
  { jobItems := [{ name := "Service", quantity := 1, unitPrice := 500, total := 500 }]
    billing :=
      { subtotal := 500
        discount := 100
        discountReason := "COUPON:SAVE100"
        taxRate := 18
        taxAmount := 72
        grandTotal := 472
        coupon := some ⟨"SAVE100", "flat", 100, 100⟩ } }

/-- `c7coupon` after one recorded usage by `u1`. -/
def c7coupon1 : Coupon := { c7coupon with usedCount := 1, usageByUser := [("u1", 1)] }

/-- `c7coupon` after two recorded usages by `u1`. -/
def c7coupon2 : Coupon := { c7coupon with usedCount := 2, usageByUser := [("u1", 2)] }

lemma c7_first : applyCoupon c7coupon c7jc "u1" 1 = .ok (c7jc1, c7coupon1, 100) := by
  simp only [applyCoupon, calculateBilling, Coupon.canBeUsedBy, Coupon.calculateDiscount,
    Coupon.recordUsage, Coupon.userUsed, bumpUsage, c7coupon, c7jc, c7jc1, c7coupon1, round2]
  norm_num
  decide

lemma c7_second : applyCoupon c7coupon1 c7jc1 "u1" 1 = .ok (c7jc1, c7coupon2, 100) := by
  simp only [applyCoupon, calculateBilling, Coupon.canBeUsedBy, Coupon.calculateDiscount,
    Coupon.recordUsage, Coupon.userUsed, bumpUsage, c7coupon, c7jc1, c7coupon1, c7coupon2,
    round2]
  norm_num
  decide

/-- C7 counterexample: re-applying the same coupon code succeeds and yields the
same ₹100 discount, but the global and per-customer usage counters are
incremented a second time (1 → 2): `recordUsage` is called on every successful
application, including repeats on the same job card. -/
theorem c7_counterexample :
    ((applyCoupon c7coupon c7jc "u1" 1).toOption.bind (fun r =>
      (applyCoupon r.2.1 r.1 "u1" 1).toOption.map (fun r2 =>
        (r2.2.2, r2.2.1.usedCount, r2.2.1.userUsed "u1")))) = some (100, 2, 2) := by
  rw [c7_first]
  simp only [Except.toOption, Option.some_bind]
  rw [c7_second]
  simp [c7coupon2, c7coupon, Coupon.userUsed, List.lookup]

/-- C7 (amended): applying a different coupon code while one is attached fails
with a business-rule error and leaves the job card unwritten; a successful
application attaches the discount to billing and increments the coupon's
global and per-customer counters by one — so re-applying the same code yields
the same discount amount but does increment the counters a second time (and is
rejected outright once the per-user limit is reached). -/
theorem c7_apply_coupon_usage :
    (∀ (coupon : Coupon) (jc : JobCard) (userId : String) (now : ℕ) (ac : AppliedCoupon),
      jc.billing.coupon = some ac → ac.code ≠ coupon.code →
      applyCoupon coupon jc userId now =
        .error (ApiError.badRequest "A coupon is already applied to this invoice")) ∧
    (∀ (coupon : Coupon) (jc : JobCard) (userId : String) (now : ℕ)
        (jc' : JobCard) (coupon' : Coupon) (d : ℚ),
      applyCoupon coupon jc userId now = .ok (jc', coupon', d) →
      coupon'.usedCount = coupon.usedCount + 1 ∧
      coupon'.userUsed userId = coupon.userUsed userId + 1 ∧
      jc'.billing.discount = d ∧
      jc'.billing.coupon = some ⟨coupon.code, coupon.couponType, coupon.value, d⟩) ∧
    (∀ (coupon : Coupon) (jc : JobCard) (userId : String) (now : ℕ)
        (jc' : JobCard) (coupon' : Coupon) (d : ℚ)
        (jc'' : JobCard) (coupon'' : Coupon) (d' : ℚ),
      applyCoupon coupon jc userId now = .ok (jc', coupon', d) →
      applyCoupon coupon' jc' userId now = .ok (jc'', coupon'', d') →
      d' = d) := by
  refine ⟨?_, ?_, ?_⟩
  · intro coupon jc userId now ac hac hne
    unfold applyCoupon
    rw [if_pos (by simp [hac, hne])]
  · intro coupon jc userId now jc' coupon' d h
    obtain ⟨hc', _, _, hd, hcoup⟩ := applyCoupon_ok coupon jc userId now jc' coupon' d h
    refine ⟨?_, ?_, hd, hcoup⟩
    · rw [hc']
      rfl
    · rw [hc']
      exact userUsed_recordUsage coupon userId
  · intro coupon jc userId now jc' coupon' d jc'' coupon'' d' h1 h2
    obtain ⟨hc', hitems, hd, _, _⟩ := applyCoupon_ok coupon jc userId now jc' coupon' d h1
    obtain ⟨_, _, hd', _, _⟩ := applyCoupon_ok coupon' jc' userId now jc'' coupon'' d' h2
    rw [hd', hd, hc', hitems, calculateDiscount_recordUsage,
      calculateBilling_subtotal, calculateBilling_subtotal]

/-- Witness for C7: the usage-increment facts at the first concrete
application. -/
theorem c7_apply_coupon_usage_witness :
    c7coupon1.usedCount = c7coupon.usedCount + 1 ∧
    c7coupon1.userUsed "u1" = c7coupon.userUsed "u1" + 1 ∧
    c7jc1.billing.discount = 100 ∧
    c7jc1.billing.coupon = some ⟨c7coupon.code, c7coupon.couponType, c7coupon.value, 100⟩ :=
  c7_apply_coupon_usage.2.1 c7coupon c7jc "u1" 1 c7jc1 c7coupon1 100 c7_first

/-- Job card for C8: pending ₹2000 estimate awaiting approval, empty history. -/
def c8jc : JobCard :=
  { status := "awaiting-approval"
    estimate := some
      { version := 1
        status := "PENDING_APPROVAL"
        subtotal := 2000
        discountAmount := 0
        taxRate := 0
        taxAmount := 0
        grandTotal := 2000 } }

/-- C8: the two estimate paths call `updateStatus` with shifted arguments
(`updateStatus(req.userId, note)` instead of `updateStatus(status, userId,
note)`), so the single appended `statusHistory` entry records the acting user's
id in its `status` field and the free-text note as the actor, and carries no
note — it does not record the new status (`approved` resp.
`awaiting-approval`), contradicting the transition contract. -/
theorem c8_status_history_bug :
    ((approveEstimate c8jc "user-42" 7).toOption.map (fun jc =>
      (jc.status, jc.statusHistory.map (fun e => (e.status, e.changedBy, e.notes))))) =
      some ("approved", [("user-42", some "Customer approved cost estimate", none)]) ∧
    ((createOrUpdateEstimate { status := "inspection" } {} "user-42" 7).toOption.map
      (fun jc => (jc.status, jc.statusHistory.map (fun e => (e.status, e.changedBy, e.notes))))) =
      some ("awaiting-approval", [("user-42", some "Estimate sent to customer", none)]) := by
  exact ⟨rfl, rfl⟩

end ClutchGear
